import Mathlib

/-!
Verification of the live camera video pipeline of xiaomi-miloco
(`web_ui/src/pages/Instant/components/VideoPlayer/index.jsx` and the
`Instant` page's session pool).

Byte buffers (JS `Uint8Array`) are modelled as `List Nat`.  A JS read
`data[i]` that is out of bounds yields `undefined`, which compares
unequal (`===`) to any byte value; we model it by the sentinel `256`,
a value no `Uint8Array` element can take, so every `=== 0x00` /
`=== 0x01` comparison on an out-of-bounds read is `false` exactly as
in JS.  The `while (i < bound)` loops run exactly `bound - i₀`
iterations (the bound is loop-invariant), so they are embedded as
structural recursion on the remaining iteration count `fuel`, with the
invariant `fuel = bound - i`.
-/

namespace Miloco

/-- Sentinel modelling a JS out-of-bounds read (`undefined`): never
equal to an actual byte. -/
def oobByte : Nat := 256

/-- `data[i]` of JS on a `Uint8Array`, with out-of-bounds reads giving
the sentinel. -/
def byteAt (d : List Nat) (i : Nat) : Nat := d.getD i oobByte

/-- The start-code test of both scan loops (lines 22-25 and 113-116 of
`VideoPlayer/index.jsx`): `00 00 01` or `00 00 00 01` at offset `i`. -/
def isStartCode (d : List Nat) (i : Nat) : Bool :=
  byteAt d i == 0x00 && byteAt d (i+1) == 0x00 &&
    ((byteAt d (i+2) == 0x00 && byteAt d (i+3) == 0x01) || byteAt d (i+2) == 0x01)

/-- `nalStart = data[i + 2] === 0x01 ? i + 3 : i + 4` (line 26). -/
def nalStart (d : List Nat) (i : Nat) : Nat :=
  if byteAt d (i+2) == 0x01 then i + 3 else i + 4

/-- `data[nalStart] & 0x1f` (line 27): the H.264 NAL type of the byte
after the start code at `i`. -/
def h264TypeAt (d : List Nat) (i : Nat) : Nat := byteAt d (nalStart d i) &&& 0x1f

/-- `(data[nalStart] >> 1) & 0x3f` (line 28): the H.265 NAL type of the
byte after the start code at `i`. -/
def h265TypeAt (d : List Nat) (i : Nat) : Nat := (byteAt d (nalStart d i) >>> 1) &&& 0x3f

/-- The loop body of `detectCodec` (lines 21-33), as structural
recursion on the remaining iteration count; `[5, 7, 8].includes` and
`[32, 33, 34, 19, 20].includes` are `List.contains`. -/
def detectCodecLoop (d : List Nat) (i : Nat) : Nat → String
  | 0 => "unknown"
  | fuel + 1 =>
    if isStartCode d i then
      if ([5, 7, 8] : List Nat).contains (h264TypeAt d i) then "h264"
      else if ([32, 33, 34, 19, 20] : List Nat).contains (h265TypeAt d i) then "h265"
      else detectCodecLoop d (i+1) fuel
    else detectCodecLoop d (i+1) fuel

/-- `detectCodec` (lines 19-35): scans from `i = 0` while
`i < data.length - 6`. -/
def detectCodec (d : List Nat) : String := detectCodecLoop d 0 (d.length - 6)

/-- The H.264 branch loop of `isKeyFrame` (lines 111-121): returns at
the FIRST start code, with
`nalUnitType = data[i+2] === 0x01 ? data[i+3] & 0x1f : data[i+4] & 0x1f`,
which coincides with `h264TypeAt`.  Runs while `i < data.length - 4`;
falls through to `false`. -/
def h264KeyLoop (d : List Nat) (i : Nat) : Nat → Bool
  | 0 => false
  | _fuel + 1 =>
    if isStartCode d i then
      h264TypeAt d i == 5
    else h264KeyLoop d (i+1) _fuel

/-- The H.265 branch loop of `isKeyFrame` (lines 125-137): scans while
`i < data.length - 6`, returning `true` on the first NAL whose type is
in `[16, 17, 18, 19, 20]`, else keeps scanning; falls through to
`false`. -/
def h265KeyLoop (d : List Nat) (i : Nat) : Nat → Bool
  | 0 => false
  | fuel + 1 =>
    if isStartCode d i then
      if ([16, 17, 18, 19, 20] : List Nat).contains (h265TypeAt d i) then true
      else h265KeyLoop d (i+1) fuel
    else h265KeyLoop d (i+1) fuel

/-- JS `String.prototype.startsWith`: `p` is a prefix of `s` (defined
over the character list so that it evaluates by kernel reduction). -/
def startsWith (s p : String) : Bool := p.data.isPrefixOf s.data

/-- `isKeyFrame` (lines 108-141): dispatch on the codec string family;
any codec matching neither family returns `true` ("default to handle
key frame"). -/
def isKeyFrame (d : List Nat) (codec : String) : Bool :=
  if startsWith codec "avc1" || startsWith codec "h264" then
    h264KeyLoop d 0 (d.length - 4)
  else if startsWith codec "hvc1" || startsWith codec "hev1" || startsWith codec "h265" then
    h265KeyLoop d 0 (d.length - 6)
  else true

/-!
## Instrumented classifier for the out-of-bounds-safety claim

`detectCodecLoopChecked` is the same loop, but every buffer access goes
through `List.get?` and the whole computation aborts with `none` as
soon as any accessed index is out of bounds.  (It reads the four
start-code bytes unconditionally where JS short-circuits, so the set of
indices it checks is a superset of the indices JS reads.)  Proving that
it always returns `some (detectCodec d)` shows the scan never reads out
of bounds.
-/

def detectCodecLoopChecked (d : List Nat) (i : Nat) : Nat → Option String
  | 0 => some "unknown"
  | fuel + 1 => do
    let b0 ← d.get? i
    let b1 ← d.get? (i+1)
    let b2 ← d.get? (i+2)
    let b3 ← d.get? (i+3)
    if b0 == 0x00 && b1 == 0x00 && ((b2 == 0x00 && b3 == 0x01) || b2 == 0x01) then
      let ns := if b2 == 0x01 then i + 3 else i + 4
      let hb ← d.get? ns
      if ([5, 7, 8] : List Nat).contains (hb &&& 0x1f) then some "h264"
      else if ([32, 33, 34, 19, 20] : List Nat).contains ((hb >>> 1) &&& 0x3f) then some "h265"
      else detectCodecLoopChecked d (i+1) fuel
    else detectCodecLoopChecked d (i+1) fuel

def detectCodecChecked (d : List Nat) : Option String :=
  detectCodecLoopChecked d 0 (d.length - 6)

/-!
## The per-session message handler (`wsRef.current.onmessage`, lines 248-280)

One WebSocket session installs a single `onmessage` closure.  That
closure captures the React state variable `autoCodec` from the render
in which the `useEffect` ran; the effect's dependency list is
`[codec, isSupported, cameraId, channel]`, which does NOT include
`autoCodec`, so `setAutoCodec` re-renders the component but never
re-runs the effect: the value of `autoCodec` read inside the closure is
frozen for the whole session (`autoCodecCaptured` below), while
`setAutoCodec` writes only the React state cell (`autoCodecState`
below).  At session start `autoCodec` is `null` (`none`).

`_waitForKeyFrame` lives on the freshly created decoder object, so it
starts out `undefined` (`none`) and is initialized to `true` on the
first message.

`decodeCalls` records every `decoderRef.current.decode(chunk)` call as
the pair `(chunk.type == key, chunk.data)`; `throws` says whether a
given `decode` call throws (the catch sets the error state).  The
handler never touches the transport or decoder handles themselves, so
`wsOpen`/`decoderOpen` are carried through unchanged.
-/

structure MsgState where
  autoCodecState : Option String
  waitFlag : Option Bool
  decodeCalls : List (Bool × List Nat)
  detectCalls : Nat
  errorFlag : Bool
  wsOpen : Bool
  decoderOpen : Bool
deriving Repr, DecidableEq

/-- Session state right after the decoder and socket are created. -/
def initState : MsgState :=
  { autoCodecState := none, waitFlag := none, decodeCalls := [], detectCalls := 0,
    errorFlag := false, wsOpen := true, decoderOpen := true }

/-- `detected === 'h264' ? 'avc1.42E01E' : 'hvc1.1.6.L93.B0'` (line 254). -/
def autoProfile (detected : String) : String :=
  if detected == "h264" then "avc1.42E01E" else "hvc1.1.6.L93.B0"

/-- `const useCodec = autoCodec || codec` (line 257), for the captured
`autoCodec`. -/
def useCodecOf (autoCodecCaptured : Option String) (codec : String) : String :=
  match autoCodecCaptured with
  | some c => c
  | none => codec

/-- One execution of the `onmessage` handler body (lines 249-279) on a
binary message `data`. -/
def onMessage (autoCodecCaptured : Option String) (codec : String)
    (throws : List Nat → Bool) (s : MsgState) (data : List Nat) : MsgState :=
  -- lines 251-256: `if (!autoCodec) { const detected = detectCodec(uint8); ... }`
  let s1 :=
    if autoCodecCaptured.isNone then
      let detected := detectCodec data
      let sd := { s with detectCalls := s.detectCalls + 1 }
      if detected == "unknown" then sd
      else { sd with autoCodecState := some (autoProfile detected) }
    else s
  let useCodec := useCodecOf autoCodecCaptured codec
  -- lines 258-260: initialize `_waitForKeyFrame` if undefined
  let s2 := if s1.waitFlag.isNone then { s1 with waitFlag := some true } else s1
  let isKey := isKeyFrame data useCodec
  -- lines 263-269: the decode gate
  if s2.waitFlag == some true && !isKey then s2
  else
    let s3 := if s2.waitFlag == some true then { s2 with waitFlag := some false } else s2
    -- lines 270-278: `try { decode(chunk) } catch { setError(...) }`
    let s4 := { s3 with decodeCalls := s3.decodeCalls ++ [(isKey, data)] }
    if throws data then { s4 with errorFlag := true } else s4

/-- Processing a per-session sequence of binary messages in arrival
order through the fixed `onmessage` closure. -/
def processMessages (autoCodecCaptured : Option String) (codec : String)
    (throws : List Nat → Bool) (s : MsgState) : List (List Nat) → MsgState
  | [] => s
  | d :: rest => processMessages autoCodecCaptured codec throws
      (onMessage autoCodecCaptured codec throws s d) rest

/-!
## Transport close handling

`wsRef.current.onclose` (lines 208-218) and the effect cleanup
(lines 283-302).  The close event's `reason` may be absent
(`const { reason = '' } = event` defaults it to the empty string).  The
handler's observable outputs are the new error state and whether the
`onPlay` ("stop requesting playback") callback is invoked.
-/

/-- The reason string the component itself passes when the user tears
the session down: `wsRef.current.close(1000, 'close_by_user')`
(line 286). -/
def userCloseReason : String := "close_by_user"

/-- The `onclose` handler (lines 208-218): result is the new error
state and whether `onPlay` is invoked. -/
def onClose (error : Option String) (reason : Option String) : Option String × Bool :=
  let e := if error.isNone then some "deviceConnectClosed" else error
  let r := reason.getD ""
  (e, r != userCloseReason)

/-!
## The multi-session pool (`Instant` page, `playStream`, lines 125-135)

`playStream` runs as one React event handler.  `setCurrentPlayingId`
takes a plain value (not an updater function), so when the handler
queues several updates, each later plain value replaces the earlier
one: the state after the handler is the LAST queued value, and every
queued value is computed from the same render-time snapshot
`currentPlayingId`.  `reactApply` is exactly that semantics.
-/

/-- React: applying a queue of plain-value `setState` updates — the
last queued value wins (each replaces the pending state). -/
def reactApply (current : List String) (updates : List (List String)) : List String :=
  updates.foldl (fun _ u => u) current

/-- The `setCurrentPlayingId` calls `playStream` queues, in order, each
computed from the render-time snapshot `current` (lines 126-134).
`item = none` models a falsy `item`. -/
def playStreamUpdates (current : List String) (item : Option String) : List (List String) :=
  match item with
  | none => []
  | some did =>
    if current.contains did then
      [current.filter (fun id => id != did)]
    else if decide (4 ≤ current.length) then
      [current.drop 1, current ++ [did]]
    else
      [current ++ [did]]

/-- The observable effect of `playStream`: the pool state after the
handler's queued updates are applied. -/
def playStream (current : List String) (item : Option String) : List String :=
  reactApply current (playStreamUpdates current item)

/-!
## Derived predicates and concrete access units used in the statements
-/

/-- The start code at `i` triggers the H.264 branch of `detectCodec`. -/
def h264Hit (d : List Nat) (i : Nat) : Bool :=
  isStartCode d i && ([5, 7, 8] : List Nat).contains (h264TypeAt d i)

/-- The start code at `i` triggers the H.265 branch of `detectCodec`. -/
def h265Hit (d : List Nat) (i : Nat) : Bool :=
  isStartCode d i && ([32, 33, 34, 19, 20] : List Nat).contains (h265TypeAt d i)

/-- The start code at `i` triggers the H.265 key-frame branch of
`isKeyFrame`. -/
def h265KeyHit (d : List Nat) (i : Nat) : Bool :=
  isStartCode d i && ([16, 17, 18, 19, 20] : List Nat).contains (h265TypeAt d i)

/-- An H.264 non-IDR slice access unit (NAL type 1). -/
def deltaBuf : List Nat := [0x00, 0x00, 0x00, 0x01, 0x41, 0x00, 0x00, 0x00]

/-- An H.264 IDR access unit (NAL type 5). -/
def keyBuf : List Nat := [0x00, 0x00, 0x00, 0x01, 0x65, 0x00, 0x00, 0x00]

/-- An H.265 VPS access unit (NAL-type field 32). -/
def h265VpsBuf : List Nat := [0x00, 0x00, 0x01, 0x40, 0x00, 0x00, 0x00]

/-- A NAL header byte `0x27` matching both families at once: H.264 type
`0x27 & 0x1f = 7` (SPS) and H.265 type `(0x27 >> 1) & 0x3f = 19`
(IDR_W_RADL). -/
def dualBuf : List Nat := [0x00, 0x00, 0x00, 0x01, 0x27, 0x00, 0x00]

/-- A buffer whose only NAL (H.265 type-16 BLA) starts within the last
6 bytes, outside the scan range of the `i < data.length - 6` loops. -/
def tailHevcBuf : List Nat := [0x00, 0x00, 0x01, 0x20, 0x00, 0x00]

/-- An H.265 type-16 NAL with enough trailing bytes to be inside the
scan range. -/
def keyHevcBuf : List Nat := [0x00, 0x00, 0x01, 0x20, 0x00, 0x00, 0x00]

/-- An H.264 non-IDR slice (type 1) followed by an IDR slice (type 5)
in the same buffer. -/
def deltaThenKeyBuf : List Nat :=
  [0x00, 0x00, 0x00, 0x01, 0x41, 0x00, 0x00, 0x00, 0x01, 0x65, 0x00, 0x00]

/-- A session state whose decode gate has already been opened by a key
frame. -/
def openGateState : MsgState := { initState with waitFlag := some false }

end Miloco

namespace Miloco

/-!
## Scan-loop lemmas
-/

/-- Split a `Bool` conjunction hypothesis. -/
theorem bool_and_split {a b : Bool} (h : (a && b) = true) : a = true ∧ b = true := by
  cases a <;> cases b <;> simp_all

/-- If position `j` is reached by the scan, carries an H.265 hit, and no
position up to and including `j` carries an H.264 hit, the `detectCodec`
loop returns `"h265"`. -/
theorem detectLoop_h265_of_hit (d : List Nat) :
    ∀ fuel i j, i ≤ j → j < i + fuel → h265Hit d j = true →
      (∀ k, i ≤ k → k ≤ j → h264Hit d k = false) →
      detectCodecLoop d i fuel = "h265" := by
  intro fuel
  induction fuel with
  | zero => intro i j h1 h2 _ _; omega
  | succ n ih =>
    intro i j hij hlt hhit hno
    obtain ⟨hsj, hcj⟩ := bool_and_split (show _ from hhit)
    simp only [detectCodecLoop]
    split
    next hs =>
      split
      next h64 =>
        exfalso
        have hhi : h264Hit d i = true := by unfold h264Hit; rw [hs, h64]; decide
        have hc := hno i (le_refl i) hij
        rw [hhi] at hc; cases hc
      next h64 =>
        split
        next h65 => rfl
        next h65 =>
          have hne : i ≠ j := by
            intro e; subst e; exact h65 hcj
          exact ih (i+1) j (by omega) (by omega) hhit
            (fun k hk1 hk2 => hno k (by omega) hk2)
    next hs =>
      have hne : i ≠ j := by
        intro e; subst e; exact hs hsj
      exact ih (i+1) j (by omega) (by omega) hhit
        (fun k hk1 hk2 => hno k (by omega) hk2)

/-- If position `j` is reached by the scan, carries an H.264 hit, and no
earlier scanned position carries a hit of either family, the
`detectCodec` loop returns `"h264"` — even when the very same header
byte also matches H.265, because the H.264 test comes first. -/
theorem detectLoop_h264_of_hit (d : List Nat) :
    ∀ fuel i j, i ≤ j → j < i + fuel → h264Hit d j = true →
      (∀ k, i ≤ k → k < j → h264Hit d k = false ∧ h265Hit d k = false) →
      detectCodecLoop d i fuel = "h264" := by
  intro fuel
  induction fuel with
  | zero => intro i j h1 h2 _ _; omega
  | succ n ih =>
    intro i j hij hlt hhit hno
    obtain ⟨hsj, hcj⟩ := bool_and_split (show _ from hhit)
    simp only [detectCodecLoop]
    by_cases hji : i = j
    · subst hji
      split
      next hs => rfl
      next hs => exact absurd hsj hs
    · have hlt2 : i < j := lt_of_le_of_ne hij hji
      have hnoi := hno i (le_refl i) hlt2
      split
      next hs =>
        split
        next h64 =>
          exfalso
          have hhi : h264Hit d i = true := by unfold h264Hit; rw [hs, h64]; decide
          rw [hhi] at hnoi; cases hnoi.1
        next h64 =>
          split
          next h65 =>
            exfalso
            have hhi : h265Hit d i = true := by unfold h265Hit; rw [hs, h65]; decide
            rw [hhi] at hnoi; cases hnoi.2
          next h65 =>
            exact ih (i+1) j (by omega) (by omega) hhit
              (fun k hk1 hk2 => hno k (by omega) hk2)
      next hs =>
        exact ih (i+1) j (by omega) (by omega) hhit
          (fun k hk1 hk2 => hno k (by omega) hk2)

/-- If no scanned position carries a hit of either family, the
`detectCodec` loop falls through to `"unknown"`. -/
theorem detectLoop_unknown (d : List Nat) :
    ∀ fuel i, (∀ k, i ≤ k → k < i + fuel → h264Hit d k = false ∧ h265Hit d k = false) →
      detectCodecLoop d i fuel = "unknown" := by
  intro fuel
  induction fuel with
  | zero => intro i _; rfl
  | succ n ih =>
    intro i hno
    have hnoi := hno i (le_refl i) (by omega)
    simp only [detectCodecLoop]
    split
    next hs =>
      split
      next h64 =>
        exfalso
        have hhi : h264Hit d i = true := by unfold h264Hit; rw [hs, h64]; decide
        rw [hhi] at hnoi; cases hnoi.1
      next h64 =>
        split
        next h65 =>
          exfalso
          have hhi : h265Hit d i = true := by unfold h265Hit; rw [hs, h65]; decide
          rw [hhi] at hnoi; cases hnoi.2
        next h65 =>
          exact ih (i+1) (fun k hk1 hk2 => hno k (by omega) (by omega))
    next hs =>
      exact ih (i+1) (fun k hk1 hk2 => hno k (by omega) (by omega))

/-- The H.264 key-frame loop returns at the FIRST start code it reaches:
if the scan reaches `j`, no earlier position is a start code, and `j`
is one, the result is `h264TypeAt d j == 5`. -/
theorem h264KeyLoop_first (d : List Nat) :
    ∀ fuel i j, i ≤ j → j < i + fuel → isStartCode d j = true →
      (∀ k, i ≤ k → k < j → isStartCode d k = false) →
      h264KeyLoop d i fuel = (h264TypeAt d j == 5) := by
  intro fuel
  induction fuel with
  | zero => intro i j h1 h2 _ _; omega
  | succ n ih =>
    intro i j hij hlt hsj hno
    by_cases hji : i = j
    · subst hji; simp [h264KeyLoop, hsj]
    · have hlt2 : i < j := lt_of_le_of_ne hij hji
      have hs : isStartCode d i = false := hno i (le_refl i) hlt2
      simp only [h264KeyLoop]
      rw [if_neg (by simp [hs])]
      exact ih (i+1) j (by omega) (by omega) hsj
        (fun k hk1 hk2 => hno k (by omega) hk2)

/-- The H.265 key-frame loop keeps scanning: any reached position with a
key hit makes it return `true`, no matter what precedes it. -/
theorem h265KeyLoop_of_hit (d : List Nat) :
    ∀ fuel i j, i ≤ j → j < i + fuel → h265KeyHit d j = true →
      h265KeyLoop d i fuel = true := by
  intro fuel
  induction fuel with
  | zero => intro i j h1 h2 _; omega
  | succ n ih =>
    intro i j hij hlt hhit
    obtain ⟨hsj, hcj⟩ := bool_and_split (show _ from hhit)
    simp only [h265KeyLoop]
    split
    next hs =>
      split
      next hc => rfl
      next hc =>
        have hne : i ≠ j := by intro e; subst e; exact hc hcj
        exact ih (i+1) j (by omega) (by omega) hhit
    next hs =>
      have hne : i ≠ j := by intro e; subst e; exact hs hsj
      exact ih (i+1) j (by omega) (by omega) hhit

/-- An in-bounds `get?` agrees with the JS-style read `byteAt`. -/
theorem get?_eq_some_byteAt (d : List Nat) (m : Nat) (h : m < d.length) :
    d.get? m = some (byteAt d m) := by
  unfold byteAt oobByte
  rw [List.getD_eq_getElem?_getD, List.get?_eq_getElem?, List.getElem?_eq_getElem h]
  rfl

/-- While the whole scan range is in bounds, the instrumented loop
performs no out-of-bounds access and computes exactly what the JS loop
computes. -/
theorem detectLoopChecked_eq (d : List Nat) :
    ∀ fuel i, i + fuel + 6 ≤ d.length →
      detectCodecLoopChecked d i fuel = some (detectCodecLoop d i fuel) := by
  intro fuel
  induction fuel with
  | zero => intro i _; rfl
  | succ n ih =>
    intro i h
    have h0 : i < d.length := by omega
    have h1 : i + 1 < d.length := by omega
    have h2 : i + 2 < d.length := by omega
    have h3 : i + 3 < d.length := by omega
    have hns : nalStart d i < d.length := by
      unfold nalStart; split <;> omega
    simp only [detectCodecLoopChecked, detectCodecLoop,
      get?_eq_some_byteAt d i h0, get?_eq_some_byteAt d (i+1) h1,
      get?_eq_some_byteAt d (i+2) h2, get?_eq_some_byteAt d (i+3) h3, Option.bind_eq_bind,
      Option.some_bind]
    by_cases hsc : isStartCode d i = true
    · rw [if_pos ?side1, if_pos hsc]
      case side1 => unfold isStartCode at hsc; exact hsc
      have hnseq : (if byteAt d (i+2) == 0x01 then i + 3 else i + 4) = nalStart d i := by
        unfold nalStart; rfl
      rw [hnseq, get?_eq_some_byteAt d (nalStart d i) hns, Option.some_bind]
      by_cases h64 : ([5, 7, 8] : List Nat).contains (h264TypeAt d i) = true
      · rw [if_pos ?side2, if_pos h64]
        case side2 => unfold h264TypeAt at h64; exact h64
      · rw [if_neg ?side3, if_neg h64]
        case side3 => unfold h264TypeAt at h64; exact h64
        by_cases h65 : ([32, 33, 34, 19, 20] : List Nat).contains (h265TypeAt d i) = true
        · rw [if_pos ?side4, if_pos h65]
          case side4 => unfold h265TypeAt at h65; exact h65
        · rw [if_neg ?side5, if_neg h65]
          case side5 => unfold h265TypeAt at h65; exact h65
          exact ih (i+1) (by omega)
    · rw [if_neg ?side6, if_neg hsc]
      case side6 => unfold isStartCode at hsc; exact hsc
      exact ih (i+1) (by omega)

/-!
## Decode-gate step lemmas
-/

/-- The message handler never touches the transport or decoder handles. -/
theorem onMessage_handles (a : Option String) (c : String) (t : List Nat → Bool)
    (s : MsgState) (d : List Nat) :
    (onMessage a c t s d).wsOpen = s.wsOpen ∧
    (onMessage a c t s d).decoderOpen = s.decoderOpen := by
  simp only [onMessage]
  split_ifs <;> simp

/-- Once the gate is open (`_waitForKeyFrame === false`), a message is
always submitted to decode and the gate stays open. -/
theorem onMessage_open (a : Option String) (c : String) (t : List Nat → Bool)
    (s : MsgState) (d : List Nat) (h : s.waitFlag = some false) :
    (onMessage a c t s d).waitFlag = some false ∧
    (onMessage a c t s d).decodeCalls
      = s.decodeCalls ++ [(isKeyFrame d (useCodecOf a c), d)] := by
  simp only [onMessage]
  split_ifs <;> simp_all

/-- While the gate is armed (or not yet initialized), a non-key message
is dropped: no decode call, no state change apart from arming the flag
and the codec-detection bookkeeping. -/
theorem onMessage_waiting_drop (a : Option String) (c : String) (t : List Nat → Bool)
    (s : MsgState) (d : List Nat) (h : s.waitFlag = some true ∨ s.waitFlag = none)
    (hk : isKeyFrame d (useCodecOf a c) = false) :
    (onMessage a c t s d).waitFlag = some true ∧
    (onMessage a c t s d).decodeCalls = s.decodeCalls ∧
    (onMessage a c t s d).errorFlag = s.errorFlag := by
  simp only [onMessage]
  rcases h with h | h <;> split_ifs <;> simp_all

/-- While the gate is armed (or not yet initialized), a key message
clears the flag and is submitted to decode. -/
theorem onMessage_waiting_pass (a : Option String) (c : String) (t : List Nat → Bool)
    (s : MsgState) (d : List Nat) (h : s.waitFlag = some true ∨ s.waitFlag = none)
    (hk : isKeyFrame d (useCodecOf a c) = true) :
    (onMessage a c t s d).waitFlag = some false ∧
    (onMessage a c t s d).decodeCalls
      = s.decodeCalls ++ [(isKeyFrame d (useCodecOf a c), d)] := by
  simp only [onMessage]
  rcases h with h | h <;> split_ifs <;> simp_all

/-- A decode call that does not throw leaves the error state alone;
messages that are dropped by the gate also leave it alone. -/
theorem onMessage_errorFlag (a : Option String) (c : String) (t : List Nat → Bool)
    (s : MsgState) (d : List Nat) (ht : t d = false) :
    (onMessage a c t s d).errorFlag = s.errorFlag := by
  simp only [onMessage]
  split_ifs <;> simp_all

/-- With the captured `autoCodec` still `null`, every message runs
`detectCodec` once more. -/
theorem onMessage_detectCalls (c : String) (t : List Nat → Bool)
    (s : MsgState) (d : List Nat) :
    (onMessage none c t s d).detectCalls = s.detectCalls + 1 := by
  simp only [onMessage]
  split_ifs <;> simp_all

/-!
## Decode-gate run lemmas
-/

/-- With the gate open, every message of a run is submitted in order. -/
theorem processMessages_open (a : Option String) (c : String) (t : List Nat → Bool) :
    ∀ msgs (s : MsgState), s.waitFlag = some false →
      (processMessages a c t s msgs).decodeCalls
        = s.decodeCalls ++ msgs.map (fun d => (isKeyFrame d (useCodecOf a c), d)) := by
  intro msgs
  induction msgs with
  | nil => intro s _; simp [processMessages]
  | cons d rest ih =>
    intro s h
    obtain ⟨h1, h2⟩ := onMessage_open a c t s d h
    simp only [processMessages]
    rw [ih _ h1, h2]
    simp

/-- The decode gate drops exactly the longest non-key prefix: starting
with the flag uninitialized (or armed), the sequence of decode
submissions is the suffix of the message sequence beginning at the
first key-classified unit. -/
theorem processMessages_gate (a : Option String) (c : String) (t : List Nat → Bool) :
    ∀ msgs (s : MsgState), s.waitFlag = some true ∨ s.waitFlag = none →
      (processMessages a c t s msgs).decodeCalls
        = s.decodeCalls ++
            (msgs.dropWhile (fun d => !(isKeyFrame d (useCodecOf a c)))).map
              (fun d => (isKeyFrame d (useCodecOf a c), d)) := by
  intro msgs
  induction msgs with
  | nil => intro s _; simp [processMessages]
  | cons d rest ih =>
    intro s h
    by_cases hk : isKeyFrame d (useCodecOf a c) = true
    · obtain ⟨h1, h2⟩ := onMessage_waiting_pass a c t s d h hk
      simp only [processMessages]
      rw [processMessages_open a c t rest _ h1, h2, List.dropWhile_cons]
      simp [hk]
    · have hk2 : isKeyFrame d (useCodecOf a c) = false := by
        cases hkk : isKeyFrame d (useCodecOf a c)
        · rfl
        · exact absurd hkk hk
      obtain ⟨h1, h2, _⟩ := onMessage_waiting_drop a c t s d h hk2
      simp only [processMessages]
      rw [ih _ (Or.inl h1), h2, List.dropWhile_cons]
      simp [hk2]

/-- If no decode call throws, the error state never turns on. -/
theorem processMessages_errorFlag (a : Option String) (c : String) :
    ∀ msgs (s : MsgState),
      (processMessages a c (fun _ => false) s msgs).errorFlag = s.errorFlag := by
  intro msgs
  induction msgs with
  | nil => intro s; simp [processMessages]
  | cons d rest ih =>
    intro s
    simp only [processMessages]
    rw [ih, onMessage_errorFlag a c (fun _ => false) s d rfl]

/-- With the captured `autoCodec` still `null`, `detectCodec` is
invoked once per received message — for every message of the session,
not only until the first successful classification. -/
theorem processMessages_detectCalls (c : String) (t : List Nat → Bool) :
    ∀ msgs (s : MsgState),
      (processMessages none c t s msgs).detectCalls = s.detectCalls + msgs.length := by
  intro msgs
  induction msgs with
  | nil => intro s; simp [processMessages]
  | cons d rest ih =>
    intro s
    simp only [processMessages]
    rw [ih, onMessage_detectCalls]
    simp [List.length_cons]
    omega

/-- When the gate is open and the decode call throws, the handler
catches and sets the error state. -/
theorem onMessage_throw (a : Option String) (c : String) (t : List Nat → Bool)
    (s : MsgState) (d : List Nat) (h : s.waitFlag = some false) (ht : t d = true) :
    (onMessage a c t s d).errorFlag = true := by
  simp only [onMessage]
  split_ifs <;> simp_all

/-- Two distinct prefixes of equal length cannot both be prefixes of
the same string. -/
theorem prefix_conflict (s p q : String) (hlen : p.data.length = q.data.length)
    (hne : p.data ≠ q.data) (hp : startsWith s p = true) (hq : startsWith s q = true) :
    False := by
  unfold startsWith at hp hq
  rw [List.isPrefixOf_iff_prefix] at hp hq
  exact hne (List.IsPrefix.eq_of_length
    (List.prefix_of_prefix_length_le hp hq (le_of_eq hlen)) hlen)

/-- A codec string of the H.265 family (`hvc1`/`hev1`/`h265` prefixes)
is never simultaneously of the H.264 family (`avc1`/`h264` prefixes),
so it always reaches the second branch of `isKeyFrame`. -/
theorem fams_exclusive (codec : String)
    (h : (startsWith codec "hvc1" || startsWith codec "hev1" || startsWith codec "h265") = true) :
    (startsWith codec "avc1" || startsWith codec "h264") = false := by
  cases ha : startsWith codec "avc1" with
  | true =>
    exfalso
    rcases Bool.or_eq_true_iff.mp h with h1 | h2
    · rcases Bool.or_eq_true_iff.mp h1 with h3 | h4
      · exact prefix_conflict codec "avc1" "hvc1" (by decide) (by decide) ha h3
      · exact prefix_conflict codec "avc1" "hev1" (by decide) (by decide) ha h4
    · exact prefix_conflict codec "avc1" "h265" (by decide) (by decide) ha h2
  | false =>
    cases hb : startsWith codec "h264" with
    | true =>
      exfalso
      rcases Bool.or_eq_true_iff.mp h with h1 | h2
      · rcases Bool.or_eq_true_iff.mp h1 with h3 | h4
        · exact prefix_conflict codec "h264" "hvc1" (by decide) (by decide) hb h3
        · exact prefix_conflict codec "h264" "hev1" (by decide) (by decide) hb h4
      · exact prefix_conflict codec "h264" "h265" (by decide) (by decide) hb h2
    | false => rfl

/-!
## Claim theorems
-/

/-- Claim C1: for every per-session sequence of access units processed
in arrival order, units classified as non-key while the gate is armed
are silently discarded (no decode submission, and — with no decoder
throws — no error), the first key-classified unit and everything after
it is submitted to decode; in particular for
`[delta, delta, key, delta]` exactly the final two units are forwarded,
the key as type `key` and the delta as type `delta`. -/
theorem C1_decode_gate :
    (∀ (a : Option String) (c : String) (t : List Nat → Bool) (msgs : List (List Nat)),
      (processMessages a c t initState msgs).decodeCalls
        = (msgs.dropWhile (fun d => !(isKeyFrame d (useCodecOf a c)))).map
            (fun d => (isKeyFrame d (useCodecOf a c), d))) ∧
    (∀ (a : Option String) (c : String) (msgs : List (List Nat)),
      (processMessages a c (fun _ => false) initState msgs).errorFlag = false) ∧
    (processMessages none "avc1.42E01E" (fun _ => false) initState
        [deltaBuf, deltaBuf, keyBuf, deltaBuf]).decodeCalls
      = [(true, keyBuf), (false, deltaBuf)] := by
  refine ⟨?_, ?_, by decide⟩
  · intro a c t msgs
    have h := processMessages_gate a c t msgs initState (Or.inr rfl)
    simpa [initState] using h
  · intro a c msgs
    have h := processMessages_errorFlag a c msgs initState
    simpa [initState] using h

/-- Claim C8: an access unit whose decode submission throws is caught:
the error state turns on, the transport and decoder handles are
untouched, the gate stays open, the unit itself was submitted, and any
subsequent units continue to be processed and submitted. -/
theorem C8_decode_error_recoverable (a : Option String) (c : String)
    (t : List Nat → Bool) (s : MsgState) (d : List Nat)
    (hflag : s.waitFlag = some false) (hthrow : t d = true) :
    (onMessage a c t s d).errorFlag = true ∧
    (onMessage a c t s d).wsOpen = s.wsOpen ∧
    (onMessage a c t s d).decoderOpen = s.decoderOpen ∧
    (onMessage a c t s d).waitFlag = some false ∧
    (onMessage a c t s d).decodeCalls
      = s.decodeCalls ++ [(isKeyFrame d (useCodecOf a c), d)] ∧
    ∀ rest, (processMessages a c t (onMessage a c t s d) rest).decodeCalls
      = (onMessage a c t s d).decodeCalls
          ++ rest.map (fun u => (isKeyFrame u (useCodecOf a c), u)) := by
  obtain ⟨hw, hdec⟩ := onMessage_open a c t s d hflag
  obtain ⟨hws, hdo⟩ := onMessage_handles a c t s d
  exact ⟨onMessage_throw a c t s d hflag hthrow, hws, hdo, hw, hdec,
    fun rest => processMessages_open a c t rest _ hw⟩

/-- Witness for C8 at a concrete throwing decode call. -/
theorem C8_decode_error_recoverable_witness :
    openGateState.waitFlag = some false ∧
    (onMessage none "avc1.42E01E" (fun _ => true) openGateState keyBuf).errorFlag = true ∧
    (onMessage none "avc1.42E01E" (fun _ => true) openGateState keyBuf).wsOpen = true ∧
    (processMessages none "avc1.42E01E" (fun _ => true)
        (onMessage none "avc1.42E01E" (fun _ => true) openGateState keyBuf)
        [deltaBuf]).decodeCalls
      = (onMessage none "avc1.42E01E" (fun _ => true) openGateState keyBuf).decodeCalls
          ++ [(isKeyFrame deltaBuf (useCodecOf none "avc1.42E01E"), deltaBuf)] := by
  have h := C8_decode_error_recoverable none "avc1.42E01E" (fun _ => true)
    openGateState keyBuf (by decide) rfl
  exact ⟨by decide, h.1, by rw [h.2.1]; decide, h.2.2.2.2.2 [deltaBuf]⟩

/-- Claim C7: the `onclose` handler requests the "stop playing"
callback exactly when the close reason (defaulted to the empty string)
differs from the component's own `close_by_user` marker; a
user-deactivation teardown closes with exactly that marker, while a
remote close with any other reason — including an absent or empty
one — does trigger the callback. -/
theorem C7_close_reason (error : Option String) (reason : Option String) :
    ((onClose error reason).2 = true ↔ reason.getD "" ≠ userCloseReason) ∧
    (onClose error (some userCloseReason)).2 = false ∧
    (onClose error (some "")).2 = true ∧
    (onClose error none).2 = true := by
  refine ⟨?_, ?_, ?_, ?_⟩
  · unfold onClose
    simp [bne_iff_ne]
  · unfold onClose
    simp [Option.getD]
  · unfold onClose userCloseReason
    simp
  · unfold onClose userCloseReason
    simp

/-- Witness for C7 at concrete close reasons. -/
theorem C7_close_reason_witness :
    (onClose none (some userCloseReason)).2 = false ∧
    (onClose none (some "going away")).2 = true ∧
    (onClose none none).2 = true := by
  refine ⟨(C7_close_reason none (some userCloseReason)).2.1,
    (C7_close_reason none (some "going away")).1.mpr (by decide),
    (C7_close_reason none none).2.2.2⟩

/-- Claim C2 evaluated on the code: toggling off and plain adding
behave as specified, but activating a 5th camera while 4 are active
leaves 5 active — the eviction update `slice(1)` queued by
`setCurrentPlayingId` is overwritten by the second queued update, which
was computed from the stale 4-element snapshot. -/
theorem C2_pool_eval :
    playStream ["a", "b", "c", "d"] (some "e") = ["a", "b", "c", "d", "e"] ∧
    (playStream ["a", "b", "c", "d"] (some "e")).length = 5 ∧
    playStreamUpdates ["a", "b", "c", "d"] (some "e")
      = [["b", "c", "d"], ["a", "b", "c", "d", "e"]] ∧
    playStream ["a", "b", "c"] (some "b") = ["a", "c"] ∧
    playStream ["a", "b"] (some "c") = ["a", "b", "c"] ∧
    playStream ["a"] none = ["a"] := by
  refine ⟨by decide, by decide, by decide, by decide, by decide, by decide⟩

/-- Claim C3 evaluated on the code: within one session the captured
`autoCodec` is permanently `null`, so `detectCodec` runs on every
message (once per unit, not once per session), and even after a
successful `h265` classification has been written to the React state,
the codec actually used for the following units is still the declared
default, not the detected profile. -/
theorem C3_sticky_codec_eval :
    (∀ (c : String) (t : List Nat → Bool) (msgs : List (List Nat)),
      (processMessages none c t initState msgs).detectCalls = msgs.length) ∧
    detectCodec h265VpsBuf = "h265" ∧
    (processMessages none "avc1.42E01E" (fun _ => false) initState
        [h265VpsBuf, h265VpsBuf]).detectCalls = 2 ∧
    (processMessages none "avc1.42E01E" (fun _ => false) initState
        [h265VpsBuf, h265VpsBuf]).autoCodecState = some "hvc1.1.6.L93.B0" ∧
    useCodecOf none "avc1.42E01E" = "avc1.42E01E" := by
  refine ⟨?_, by decide, by decide, by decide, rfl⟩
  intro c t msgs
  have h := processMessages_detectCalls c t msgs initState
  simpa [initState] using h

/-- Counterexample to claim C4 as stated: `dualBuf` contains an H.265
IDR NAL by the claim's own criterion (the NAL-type field of the byte
after the start code is 19), yet `detectCodec` returns `"h264"`,
because the same header byte `0x27` also matches the H.264 test, which
runs first. -/
theorem C4_counterexample :
    isStartCode dualBuf 0 = true ∧ h265TypeAt dualBuf 0 = 19 ∧
    detectCodec dualBuf = "h264" ∧ detectCodec dualBuf ≠ "h265" := by
  refine ⟨by decide, by decide, by decide, by decide⟩

/-- Claim C4 (amended): if some start code scanned by the loop (start
position `i` with `i + 7 ≤ length`) carries an H.265 type in
`{32, 33, 34, 19, 20}`, and no start code at a scanned position up to
and including `i` carries an H.264 type in `{5, 7, 8}`, then
`detectCodec` returns `h265`. -/
theorem C4_h265_detection (d : List Nat) (i : Nat)
    (hrange : i + 7 ≤ d.length) (hhit : h265Hit d i = true)
    (hno : ∀ j, j ≤ i → h264Hit d j = false) :
    detectCodec d = "h265" := by
  unfold detectCodec
  exact detectLoop_h265_of_hit d (d.length - 6) 0 i (Nat.zero_le i) (by omega) hhit
    (fun k _ hk2 => hno k hk2)

/-- Witness for C4 (amended) at a concrete VPS buffer. -/
theorem C4_h265_detection_witness :
    h265Hit h265VpsBuf 0 = true ∧ detectCodec h265VpsBuf = "h265" := by
  refine ⟨by decide, C4_h265_detection h265VpsBuf 0 (by decide) (by decide) ?_⟩
  intro j hj
  have hj0 : j = 0 := Nat.le_zero.mp hj
  subst hj0
  decide

/-- Claim C5: if the first start code of the buffer carries H.264 NAL
type 5 and lies in scan range, `detectCodec` returns `h264` and
`isKeyFrame` under an h264-family codec returns `true`; conversely, if
the first start code carries any other H.264 type, `isKeyFrame` under
an h264-family codec returns `false`. -/
theorem C5_first_nal_idr (d : List Nat) (codec : String) (i : Nat)
    (hfam : (startsWith codec "avc1" || startsWith codec "h264") = true)
    (hfirst : ∀ j, j < i → isStartCode d j = false)
    (hsc : isStartCode d i = true) :
    (i + 7 ≤ d.length → h264TypeAt d i = 5 →
      detectCodec d = "h264" ∧ isKeyFrame d codec = true) ∧
    (i + 5 ≤ d.length → h264TypeAt d i ≠ 5 → isKeyFrame d codec = false) := by
  constructor
  · intro hrange htype
    constructor
    · unfold detectCodec
      apply detectLoop_h264_of_hit d (d.length - 6) 0 i (Nat.zero_le i) (by omega)
      · unfold h264Hit
        rw [hsc, htype]
        decide
      · intro k _ hk2
        constructor
        · unfold h264Hit; rw [hfirst k hk2]; rfl
        · unfold h265Hit; rw [hfirst k hk2]; rfl
    · unfold isKeyFrame
      rw [if_pos hfam]
      rw [h264KeyLoop_first d (d.length - 4) 0 i (Nat.zero_le i) (by omega) hsc
        (fun k _ hk2 => hfirst k hk2)]
      rw [htype]
      decide
  · intro hrange htype
    unfold isKeyFrame
    rw [if_pos hfam]
    rw [h264KeyLoop_first d (d.length - 4) 0 i (Nat.zero_le i) (by omega) hsc
      (fun k _ hk2 => hfirst k hk2)]
    simp [htype]

/-- Witness for C5 at a concrete IDR buffer and a concrete non-IDR
buffer. -/
theorem C5_first_nal_idr_witness :
    detectCodec keyBuf = "h264" ∧ isKeyFrame keyBuf "avc1.42E01E" = true ∧
    isKeyFrame deltaBuf "avc1.42E01E" = false := by
  have h1 := C5_first_nal_idr keyBuf "avc1.42E01E" 0 (by decide)
    (fun j hj => absurd hj (Nat.not_lt_zero j)) (by decide)
  have h2 := C5_first_nal_idr deltaBuf "avc1.42E01E" 0 (by decide)
    (fun j hj => absurd hj (Nat.not_lt_zero j)) (by decide)
  exact ⟨(h1.1 (by decide) (by decide)).1, (h1.1 (by decide) (by decide)).2,
    h2.2 (by decide) (by decide)⟩

/-- Claim C6: `detectCodec` returns `unknown` on every buffer shorter
than 6 bytes and on every buffer with no start code, and (through the
access-checked variant of the same loop) never reads an index outside
the buffer. -/
theorem C6_detect_safe :
    (∀ d : List Nat, d.length < 6 → detectCodec d = "unknown") ∧
    (∀ d : List Nat, (∀ i, isStartCode d i = false) → detectCodec d = "unknown") ∧
    (∀ d : List Nat, detectCodecChecked d = some (detectCodec d)) := by
  refine ⟨?_, ?_, ?_⟩
  · intro d h
    unfold detectCodec
    have hz : d.length - 6 = 0 := by omega
    rw [hz]
    rfl
  · intro d h
    unfold detectCodec
    apply detectLoop_unknown
    intro k _ _
    constructor
    · unfold h264Hit; rw [h k]; rfl
    · unfold h265Hit; rw [h k]; rfl
  · intro d
    by_cases h : 6 ≤ d.length
    · unfold detectCodecChecked detectCodec
      exact detectLoopChecked_eq d (d.length - 6) 0 (by omega)
    · unfold detectCodecChecked detectCodec
      have hz : d.length - 6 = 0 := by omega
      rw [hz]
      rfl

/-- Witness for C6 at a 3-byte buffer and at the empty buffer. -/
theorem C6_detect_safe_witness :
    detectCodec [0x00, 0x00, 0x01] = "unknown" ∧
    detectCodec [] = "unknown" ∧
    detectCodecChecked tailHevcBuf = some (detectCodec tailHevcBuf) := by
  refine ⟨C6_detect_safe.1 [0x00, 0x00, 0x01] (by decide),
    C6_detect_safe.2.1 [] ?_, C6_detect_safe.2.2 tailHevcBuf⟩
  intro i
  unfold isStartCode byteAt
  simp [oobByte]

/-- Claim C9: the H.264 test runs before the H.265 test on the same
NAL header byte, so a first-matched header byte satisfying both
families (such as `0x27`) classifies as `h264`, never `h265`. -/
theorem C9_h264_precedence (d : List Nat) (i : Nat)
    (hrange : i + 7 ≤ d.length) (hsc : isStartCode d i = true)
    (h64 : ([5, 7, 8] : List Nat).contains (h264TypeAt d i) = true)
    (h65 : ([32, 33, 34, 19, 20] : List Nat).contains (h265TypeAt d i) = true)
    (hfirst : ∀ j, j < i → h264Hit d j = false ∧ h265Hit d j = false) :
    detectCodec d = "h264" ∧ detectCodec d ≠ "h265" := by
  have hmain : detectCodec d = "h264" := by
    unfold detectCodec
    apply detectLoop_h264_of_hit d (d.length - 6) 0 i (Nat.zero_le i) (by omega)
    · unfold h264Hit
      rw [hsc, h64]
      decide
    · exact fun k _ hk2 => hfirst k hk2
  refine ⟨hmain, ?_⟩
  rw [hmain]
  decide

/-- Witness for C9 at the dual-match byte `0x27`. -/
theorem C9_h264_precedence_witness :
    ([5, 7, 8] : List Nat).contains (h264TypeAt dualBuf 0) = true ∧
    ([32, 33, 34, 19, 20] : List Nat).contains (h265TypeAt dualBuf 0) = true ∧
    detectCodec dualBuf = "h264" := by
  have h := C9_h264_precedence dualBuf 0 (by decide) (by decide) (by decide) (by decide)
    (fun j hj => absurd hj (Nat.not_lt_zero j))
  exact ⟨by decide, by decide, h.1⟩

/-- Counterexample to claim C10 as stated: for an h265-family codec the
loop does NOT scan all NAL units in the buffer — `tailHevcBuf` has a
NAL with type field 16 (in `{16, ..., 20}`), but its start code begins
within the last 6 bytes, so `isKeyFrame` returns `false`. -/
theorem C10_counterexample :
    isStartCode tailHevcBuf 0 = true ∧ h265TypeAt tailHevcBuf 0 = 16 ∧
    isKeyFrame tailHevcBuf "hvc1.1.6.L93.B0" = false := by
  refine ⟨by decide, by decide, by decide⟩

/-- Claim C10 (amended): for an h264-family codec, `isKeyFrame`
returns at the first start code, so a non-IDR first NAL yields `false`
even when an IDR NAL follows later in the buffer; for an h265-family
codec it scans every NAL whose start code lies in scan range
(`p + 7 ≤ length`) and returns `true` if any such NAL has type in
`{16, 17, 18, 19, 20}`; a codec of neither family returns `true`
without inspecting the buffer. -/
theorem C10_keyframe_scan :
    (∀ (d : List Nat) (codec : String) (i j : Nat),
      (startsWith codec "avc1" || startsWith codec "h264") = true →
      (∀ k, k < i → isStartCode d k = false) → isStartCode d i = true →
      i + 5 ≤ d.length → h264TypeAt d i ≠ 5 →
      i < j → isStartCode d j = true → h264TypeAt d j = 5 →
      isKeyFrame d codec = false) ∧
    (∀ (d : List Nat) (codec : String) (i : Nat),
      (startsWith codec "hvc1" || startsWith codec "hev1" || startsWith codec "h265") = true →
      i + 7 ≤ d.length → h265KeyHit d i = true →
      isKeyFrame d codec = true) ∧
    (∀ (d : List Nat) (codec : String),
      (startsWith codec "avc1" || startsWith codec "h264") = false →
      (startsWith codec "hvc1" || startsWith codec "hev1" || startsWith codec "h265") = false →
      isKeyFrame d codec = true) := by
  refine ⟨?_, ?_, ?_⟩
  · intro d codec i j hfam hfirst hsc hrange htype hij hscj htypej
    unfold isKeyFrame
    rw [if_pos hfam]
    rw [h264KeyLoop_first d (d.length - 4) 0 i (Nat.zero_le i) (by omega) hsc
      (fun k _ hk2 => hfirst k hk2)]
    simp [htype]
  · intro d codec i hfam hrange hhit
    unfold isKeyFrame
    rw [if_neg ?hna, if_pos hfam]
    case hna =>
      rw [fams_exclusive codec hfam]
      decide
    exact h265KeyLoop_of_hit d (d.length - 6) 0 i (Nat.zero_le i) (by omega) hhit
  · intro d codec h1 h2
    unfold isKeyFrame
    rw [if_neg ?hnb, if_neg ?hnc]
    case hnb => rw [h1]; decide
    case hnc => rw [h2]; decide

/-- Witness for C10 (amended) at concrete buffers of each kind. -/
theorem C10_keyframe_scan_witness :
    isKeyFrame deltaThenKeyBuf "avc1.42E01E" = false ∧
    isKeyFrame keyHevcBuf "hvc1.1.6.L93.B0" = true ∧
    isKeyFrame deltaBuf "audio/aac" = true := by
  refine ⟨?_, ?_, ?_⟩
  · refine C10_keyframe_scan.1 deltaThenKeyBuf "avc1.42E01E" 0 5 (by decide) ?_
      (by decide) (by decide) (by decide) (by decide) (by decide) (by decide)
    intro k hk
    exact absurd hk (Nat.not_lt_zero k)
  · exact C10_keyframe_scan.2.1 keyHevcBuf "hvc1.1.6.L93.B0" 0 (by decide) (by decide)
      (by decide)
  · exact C10_keyframe_scan.2.2 deltaBuf "audio/aac" (by decide) (by decide)

end Miloco
